import Mathlib

/-!
Verification of the Personal Finance Tracker backend
(`finance_tracker_backend/app.py`, `finance_tracker_backend/models.py`).

The backend is a Flask CRUD service.  We shallow-embed each request handler
as a pure Lean function over an explicit store (a list of rows).  Conventions:

* The database is `List Txn` (transactions) and `List User` (users); the
  SQLAlchemy session's commit-at-end semantics is modelled by returning the
  original store on every early-error path (nothing was committed there, and
  Flask-SQLAlchemy rolls the session back at request teardown) and the updated
  store only on the path that reaches `db.session.commit()`.
* JSON request values are `Option`-fields: `none` means the key is absent from
  the body; `some v` means the key is present with value `v`.  Where the
  handler only ever treats the value as a string (`type`, `category`, `date`,
  `description` and all query parameters) the field is `Option String`; the
  `amount` field, whose handler behaviour depends on the value's JSON kind
  (Python truthiness and `float(...)`), is a general `JsonVal`.
* Monetary amounts (`Numeric(10,2)` column, summed through `float` in the
  handlers) are idealized as `Rat`; the claims under study are control-flow
  and exact-sum properties on two-digit decimals, where rational arithmetic
  agrees with the source.
* `datetime.strptime(s, "%Y-%m-%d").date()` is embedded as `parseDate`,
  `float(x)` as `pyFloat`, Python truthiness (`if x:`) as `pyTruthy` /
  `truthyOptStr`, `str.lower()` as `pyLower`, `str.strip()` as `pyStrip`.
  The string primitives are implemented on the character list `String.data`
  so that every definition evaluates by kernel reduction.
* Password hashing (`generate_password_hash` / `check_password_hash`) is an
  external collaborator; handlers that use it are parametrized over the hash
  and check functions.
-/

namespace FinanceTracker

/-- A calendar date as produced by `datetime.strptime(s, "%Y-%m-%d").date()`. -/
structure Date where
  year : Nat
  month : Nat
  day : Nat
deriving DecidableEq, Repr

def isLeapYear (y : Nat) : Bool :=
  y % 4 == 0 && (y % 100 != 0 || y % 400 == 0)

def daysInMonth (y m : Nat) : Nat :=
  if m == 2 then (if isLeapYear y then 29 else 28)
  else if m == 4 || m == 6 || m == 9 || m == 11 then 30
  else 31

/-- `datetime.date` range/validity checks: year 1..9999, month 1..12,
day within the month. -/
def mkValidDate (y m d : Nat) : Option Date :=
  if 1 ≤ y && y ≤ 9999 && 1 ≤ m && m ≤ 12 && 1 ≤ d && d ≤ daysInMonth y m
  then some ⟨y, m, d⟩ else none

/-- `str.lower()` (the emails in play are ASCII). -/
def pyLower (s : String) : String := ⟨s.data.map Char.toLower⟩

/-- The characters `str.strip()` removes. -/
def pySpace (c : Char) : Bool :=
  c == ' ' || c == '\t' || c == '\n' || c == '\r' || c == '\x0b' || c == '\x0c'

/-- `str.strip()`: drop whitespace from both ends. -/
def pyStrip (s : String) : String :=
  ⟨((s.data.dropWhile pySpace).reverse.dropWhile pySpace).reverse⟩

/-- `str.split(sep)` for a one-character separator (the splitting done by
`strptime` field matching and by `float` literal parsing). -/
def splitOnChar (sep : Char) : List Char → List (List Char)
  | [] => [[]]
  | c :: cs =>
    if c == sep then [] :: splitOnChar sep cs
    else
      match splitOnChar sep cs with
      | [] => [[c]]
      | p :: ps => (c :: p) :: ps

/-- A nonempty run of decimal digits, as matched by one `%Y`/`%m`/`%d`
field, converted to its value. -/
def digitsToNat (l : List Char) : Option Nat :=
  if l ≠ [] && l.all Char.isDigit then
    some (l.foldl (fun n c => 10 * n + (c.toNat - 48)) 0)
  else none

/-- `datetime.strptime(s, "%Y-%m-%d").date()`: three dash-separated digit
runs (at most 4/2/2 digits), then calendar validity; `none` models the
`ValueError` raised on any mismatch. -/
def parseDate (s : String) : Option Date :=
  match splitOnChar '-' s.data with
  | [ys, ms, ds] =>
    if ys.length ≤ 4 && ms.length ≤ 2 && ds.length ≤ 2 then
      match digitsToNat ys, digitsToNat ms, digitsToNat ds with
      | some y, some m, some d => mkValidDate y m d
      | _, _, _ => none
    else none
  | _ => none

/-- Date comparison (`<=` on `datetime.date`): lexicographic on (y, m, d). -/
def dateLe (a b : Date) : Bool :=
  a.year < b.year ||
    (a.year == b.year &&
      (a.month < b.month || (a.month == b.month && a.day ≤ b.day)))

/-- A JSON value as delivered by `request.get_json()` (objects/arrays are not
needed by any handler field we model). -/
inductive JsonVal where
  | jnull
  | jbool (b : Bool)
  | jnum (q : Rat)
  | jstr (s : String)
deriving DecidableEq, Repr

/-- Python truthiness of a JSON value (`if x:`). -/
def pyTruthy : JsonVal → Bool
  | .jnull => false
  | .jbool b => b
  | .jnum q => q != 0
  | .jstr s => s != ""

/-- Truthiness of `data.get(k)` / `request.args.get(k)` for a string-valued
key: `None` (absent) and `""` are falsy. -/
def truthyOptStr : Option String → Bool
  | none => false
  | some s => s != ""

/-- Truthiness of `data.get(k)` for the `amount` key. -/
def truthyOptJson : Option JsonVal → Bool
  | none => false
  | some v => pyTruthy v

/-- Decimal literal body accepted by `float(...)` (after sign removal):
`digits`, `digits.digits`, `digits.`, `.digits`. -/
def parseUnsignedDecimal (l : List Char) : Option Rat :=
  match splitOnChar '.' l with
  | [ip] => (digitsToNat ip).map (fun n => (n : Rat))
  | [ip, fp] =>
    if ip = [] && fp = [] then none
    else
      match (if ip = [] then some 0 else digitsToNat ip),
            (if fp = [] then some 0 else digitsToNat fp) with
      | some i, some f => some ((i : Rat) + (f : Rat) / ((10 : Rat) ^ fp.length))
      | _, _ => none
  | _ => none

/-- `float(s)` on a string: optional surrounding whitespace and sign, then a
decimal literal (exponent/inf/nan forms are never exercised by the claims). -/
def pyFloatStr (s : String) : Option Rat :=
  match (pyStrip s).data with
  | '-' :: rest => (parseUnsignedDecimal rest).map (fun q => -q)
  | '+' :: rest => parseUnsignedDecimal rest
  | l => parseUnsignedDecimal l

/-- `float(x)` on a JSON value; `none` models the `ValueError`/`TypeError`
caught by the handlers. -/
def pyFloat : JsonVal → Option Rat
  | .jnull => none
  | .jbool b => some (if b then 1 else 0)
  | .jnum q => some q
  | .jstr s => pyFloatStr s

/-- A persisted row of the `transactions` table (`models.Transaction`);
`created_at` is a server clock value no claim mentions and is omitted. -/
structure Txn where
  id : Nat
  user_id : Nat
  type : String
  category : String
  amount : Rat
  date : Date
  description : String
deriving DecidableEq, Repr

/-- A persisted row of the `users` table (`models.User`); `created_at`
omitted as above. -/
structure User where
  id : Nat
  name : String
  email : String
  password_hash : String
deriving DecidableEq, Repr

/-- `valid_types` from `create_transaction` / `update_transaction`. -/
def validTypes : List String := ["income", "expense", "savings", "investment"]

/-- Response of a single-transaction handler: HTTP status, `message` field,
`error` field, `transaction` field. -/
structure TxnResponse where
  status : Nat
  message : Option String
  error : Option String
  txn : Option Txn
deriving DecidableEq, Repr

/-- The scoped lookup every transaction handler performs:
`Transaction.query.filter_by(id=transaction_id, user_id=current_user_id).first()`. -/
def scopedFind (store : List Txn) (uid tid : Nat) : Option Txn :=
  store.find? (fun t => t.id == tid && t.user_id == uid)

/-- `GET /api/transactions/<id>` (`get_transaction`). -/
def get_transaction (store : List Txn) (uid tid : Nat) : TxnResponse :=
  match scopedFind store uid tid with
  | none => ⟨404, none, some "Transaction not found", none⟩
  | some t => ⟨200, none, none, some t⟩

/-- `DELETE /api/transactions/<id>` (`delete_transaction`); the second
component is the store after the request. -/
def delete_transaction (store : List Txn) (uid tid : Nat) :
    TxnResponse × List Txn :=
  match scopedFind store uid tid with
  | none => (⟨404, none, some "Transaction not found", none⟩, store)
  | some t =>
    (⟨200, some "Transaction deleted successfully", none, none⟩,
     store.filter (fun x => x.id != t.id))

/-- The JSON body of a `POST /api/transactions` request (fields the handler
reads; `none` = key absent). -/
structure CreateInput where
  type : Option String
  category : Option String
  amount : Option JsonVal
  date : Option String
  description : Option String
deriving DecidableEq, Repr

/-- `POST /api/transactions` (`create_transaction`): the required-field
truthiness checks, the enum check on `type`, `float` conversion and
positivity of `amount`, `strptime` on `date` (its `ValueError` is answered
with the 400 date-format response), then insert with the next primary key. -/
def create_transaction (store : List Txn) (uid nextId : Nat) (d : CreateInput) :
    TxnResponse × List Txn :=
  if ¬ truthyOptStr d.type then
    (⟨400, none, some "Transaction type is required", none⟩, store)
  else if ¬ truthyOptStr d.category then
    (⟨400, none, some "Category is required", none⟩, store)
  else if ¬ truthyOptJson d.amount then
    (⟨400, none, some "Amount is required", none⟩, store)
  else if ¬ truthyOptStr d.date then
    (⟨400, none, some "Date is required", none⟩, store)
  else if ¬ validTypes.contains (d.type.getD "") then
    (⟨400, none, some "Invalid transaction type", none⟩, store)
  else
    match pyFloat (d.amount.getD .jnull) with
    | none => (⟨400, none, some "Invalid amount format", none⟩, store)
    | some q =>
      if q ≤ 0 then
        (⟨400, none, some "Amount must be greater than 0", none⟩, store)
      else
        match parseDate (d.date.getD "") with
        | none =>
          (⟨400, none, some "Invalid date format. Use YYYY-MM-DD", none⟩, store)
        | some dt =>
          let t : Txn :=
            ⟨nextId, uid, d.type.getD "", d.category.getD "", q, dt,
             pyStrip (d.description.getD "")⟩
          (⟨201, some "Transaction created successfully", none, some t⟩,
           store ++ [t])

/-- The JSON body of a `PUT /api/transactions/<id>` request (`none` = key
absent from the body, matching the handler's `'k' in data` checks). -/
structure UpdateInput where
  type : Option String
  category : Option String
  amount : Option JsonVal
  date : Option String
  description : Option String
deriving DecidableEq, Repr

/-- `if 'type' in data:` block of `update_transaction`. -/
def applyTypeField (d : UpdateInput) (t : Txn) : Except (Nat × String) Txn :=
  match d.type with
  | none => .ok t
  | some ty =>
    if validTypes.contains ty then .ok { t with type := ty }
    else .error (400, "Invalid transaction type")

/-- `if 'category' in data:` block of `update_transaction` — the value is
assigned with no validation. -/
def applyCategoryField (d : UpdateInput) (t : Txn) : Except (Nat × String) Txn :=
  match d.category with
  | none => .ok t
  | some c => .ok { t with category := c }

/-- `if 'amount' in data:` block of `update_transaction`. -/
def applyAmountField (d : UpdateInput) (t : Txn) : Except (Nat × String) Txn :=
  match d.amount with
  | none => .ok t
  | some v =>
    match pyFloat v with
    | none => .error (400, "Invalid amount format")
    | some q =>
      if q ≤ 0 then .error (400, "Amount must be greater than 0")
      else .ok { t with amount := q }

/-- `if 'date' in data:` block of `update_transaction`. -/
def applyDateField (d : UpdateInput) (t : Txn) : Except (Nat × String) Txn :=
  match d.date with
  | none => .ok t
  | some s =>
    match parseDate s with
    | none => .error (400, "Invalid date format. Use YYYY-MM-DD")
    | some dt => .ok { t with date := dt }

/-- `if 'description' in data:` block of `update_transaction`. -/
def applyDescriptionField (d : UpdateInput) (t : Txn) :
    Except (Nat × String) Txn :=
  match d.description with
  | none => .ok t
  | some s => .ok { t with description := pyStrip s }

/-- The field-by-field mutation sequence of `update_transaction`, in source
order; an `error` is one of the handler's early 400 returns, issued before
`db.session.commit()`. -/
def applyUpdateFields (d : UpdateInput) (t : Txn) : Except (Nat × String) Txn :=
  applyTypeField d t >>= applyCategoryField d >>= applyAmountField d >>=
    applyDateField d >>= applyDescriptionField d

/-- `PUT /api/transactions/<id>` (`update_transaction`): ownership-scoped
lookup, then the field blocks; only the path reaching `db.session.commit()`
writes the mutated row back (an early 400 return leaves the session
uncommitted, so the store is unchanged). -/
def update_transaction (store : List Txn) (uid tid : Nat) (d : UpdateInput) :
    TxnResponse × List Txn :=
  match scopedFind store uid tid with
  | none => (⟨404, none, some "Transaction not found", none⟩, store)
  | some t0 =>
    match applyUpdateFields d t0 with
    | .error (st, msg) => (⟨st, none, some msg, none⟩, store)
    | .ok t1 =>
      (⟨200, some "Transaction updated successfully", none, some t1⟩,
       store.map (fun x => if x.id == t0.id then t1 else x))

/-- Response of `GET /api/transactions`. -/
structure ListResponse where
  status : Nat
  transactions : List Txn
  count : Nat
  error : Option String
deriving DecidableEq, Repr

/-- `if param: query = query.filter_by(field=param)` for a string query
parameter (absent and empty are both falsy, so no predicate is applied). -/
def filterByStr (get : Txn → String) (q : Option String) (l : List Txn) :
    List Txn :=
  match q with
  | none => l
  | some s => if s == "" then l else l.filter (fun t => get t == s)

/-- `if start_date: query = query.filter(Transaction.date >= strptime(...))`;
`none` models the `ValueError` the handler lets escape to its generic
`except Exception` (500). -/
def filterFromDate (q : Option String) (l : List Txn) : Option (List Txn) :=
  match q with
  | none => some l
  | some s =>
    if s == "" then some l
    else
      match parseDate s with
      | none => none
      | some d => some (l.filter (fun t => dateLe d t.date))

/-- `if end_date: query = query.filter(Transaction.date <= strptime(...))`. -/
def filterToDate (q : Option String) (l : List Txn) : Option (List Txn) :=
  match q with
  | none => some l
  | some s =>
    if s == "" then some l
    else
      match parseDate s with
      | none => none
      | some d => some (l.filter (fun t => dateLe t.date d))

/-- `order_by(Transaction.date.desc())`: sort by date, newest first
(insertion sort; the claims do not depend on tie order). -/
def insertByDateDesc (t : Txn) : List Txn → List Txn
  | [] => [t]
  | x :: xs =>
    if dateLe x.date t.date then t :: x :: xs else x :: insertByDateDesc t xs

def sortByDateDesc : List Txn → List Txn
  | [] => []
  | x :: xs => insertByDateDesc x (sortByDateDesc xs)

/-- `GET /api/transactions` (`get_transactions`): owner scoping, the four
optional filters in source order, then `order_by(Transaction.date.desc())`.
A malformed date raises `ValueError` inside the `try`, which the handler's
only `except Exception` turns into a 500 response. -/
def get_transactions (store : List Txn) (uid : Nat)
    (qtype qcat qstart qend : Option String) : ListResponse :=
  let base := store.filter (fun t => t.user_id == uid)
  let q1 := filterByStr (fun t => t.type) qtype base
  let q2 := filterByStr (fun t => t.category) qcat q1
  match filterFromDate qstart q2 with
  | none => ⟨500, [], 0, some "Failed to fetch transactions"⟩
  | some q3 =>
    match filterToDate qend q3 with
    | none => ⟨500, [], 0, some "Failed to fetch transactions"⟩
    | some q4 =>
      let ts := sortByDateDesc q4
      ⟨200, ts, ts.length, none⟩

/-- Response of `GET /api/stats/summary`. -/
structure SummaryResponse where
  status : Nat
  total_income : Rat
  total_expense : Rat
  total_savings : Rat
  total_investment : Rat
  balance : Rat
  transaction_count : Nat
  error : Option String
deriving DecidableEq, Repr

/-- `sum(float(t.amount) for t in transactions if t.type == ty)`. -/
def sumAmounts (ts : List Txn) (ty : String) : Rat :=
  ((ts.filter (fun t => t.type == ty)).map (fun t => t.amount)).sum

/-- `GET /api/stats/summary` (`get_stats_summary`): owner scoping, optional
date filters (a malformed date again escapes to the generic 500), per-type
sums and `balance = income - expense - savings - investment`. -/
def get_stats_summary (store : List Txn) (uid : Nat)
    (qstart qend : Option String) : SummaryResponse :=
  let base := store.filter (fun t => t.user_id == uid)
  match filterFromDate qstart base with
  | none => ⟨500, 0, 0, 0, 0, 0, 0, some "Failed to fetch statistics"⟩
  | some q1 =>
    match filterToDate qend q1 with
    | none => ⟨500, 0, 0, 0, 0, 0, 0, some "Failed to fetch statistics"⟩
    | some ts =>
      let ti := sumAmounts ts "income"
      let te := sumAmounts ts "expense"
      let tsv := sumAmounts ts "savings"
      let tin := sumAmounts ts "investment"
      ⟨200, ti, te, tsv, tin, ti - te - tsv - tin, ts.length, none⟩

/-- Response of `POST /api/register` / `POST /api/login`. -/
structure AuthResponse where
  status : Nat
  message : Option String
  error : Option String
  user : Option User
deriving DecidableEq, Repr

/-- The JSON body of `POST /api/register`. -/
structure RegisterInput where
  name : Option String
  email : Option String
  password : Option String
deriving DecidableEq, Repr

/-- `POST /api/register` (`register`), parametrized over the password hash
function.  The duplicate pre-check queries `email=data['email'].lower()`
(no `.strip()`), while the stored email is `data['email'].lower().strip()`;
if the pre-check passes but a row with the stored email already exists, the
`unique=True` constraint on `users.email` makes `db.session.commit()` raise,
which the handler's `except Exception` catches, rolls back, and answers
with the generic 500 "Registration failed". -/
def register (hash : String → String) (users : List User) (nextId : Nat)
    (d : RegisterInput) : AuthResponse × List User :=
  if ¬ truthyOptStr d.name then
    (⟨400, none, some "Name is required", none⟩, users)
  else if ¬ truthyOptStr d.email then
    (⟨400, none, some "Email is required", none⟩, users)
  else if ¬ truthyOptStr d.password then
    (⟨400, none, some "Password is required", none⟩, users)
  else if ¬ (d.email.getD "").data.contains '@' then
    (⟨400, none, some "Invalid email format", none⟩, users)
  else if (d.password.getD "").length < 6 then
    (⟨400, none, some "Password must be at least 6 characters", none⟩, users)
  else if (users.find? (fun u => u.email == pyLower (d.email.getD ""))).isSome then
    (⟨400, none, some "Email already exists", none⟩, users)
  else
    let newEmail := pyStrip (pyLower (d.email.getD ""))
    if users.any (fun u => u.email == newEmail) then
      (⟨500, none, some "Registration failed", none⟩, users)
    else
      let u : User := ⟨nextId, pyStrip (d.name.getD ""), newEmail,
                       hash (d.password.getD "")⟩
      (⟨201, some "User created successfully", none, some u⟩, users ++ [u])

/-- The JSON body of `POST /api/login`. -/
structure LoginInput where
  email : Option String
  password : Option String
deriving DecidableEq, Repr

/-- `POST /api/login` (`login`), parametrized over
`check_password_hash`: `if not user or not user.check_password(...)` yields
the single 401 response for both the unknown-email and the wrong-password
case. -/
def login (check : String → String → Bool) (users : List User)
    (d : LoginInput) : AuthResponse :=
  if ¬ truthyOptStr d.email then ⟨400, none, some "Email is required", none⟩
  else if ¬ truthyOptStr d.password then
    ⟨400, none, some "Password is required", none⟩
  else
    match users.find? (fun u => u.email == pyStrip (pyLower (d.email.getD ""))) with
    | none => ⟨401, none, some "Invalid email or password", none⟩
    | some u =>
      if ¬ check u.password_hash (d.password.getD "") then
        ⟨401, none, some "Invalid email or password", none⟩
      else ⟨200, some "Login successful", none, some u⟩

/-! ### Helper lemmas -/

/-- Primary-key uniqueness of the `transactions` table: two rows with the
same `id` are the same row. -/
abbrev UniqueIds (store : List Txn) : Prop :=
  ∀ t1 ∈ store, ∀ t2 ∈ store, t1.id = t2.id → t1 = t2

theorem scopedFind_eq_none_of_other_user (store : List Txn)
    (u1 u2 tid : Nat) (a : Txn) (huniq : UniqueIds store)
    (ha : a ∈ store) (haid : a.id = tid) (haown : a.user_id = u1)
    (hne : u2 ≠ u1) : scopedFind store u2 tid = none := by
  rw [scopedFind, List.find?_eq_none]
  intro x hx
  simp only [Bool.and_eq_true, beq_iff_eq, not_and]
  intro hid hu
  have hxa : x = a := huniq x hx a ha (hid.trans haid.symm)
  rw [hxa] at hu
  exact hne (hu.symm.trans haown)

theorem except_bind_ok {ε α β : Type} (a : Except ε α) (f : α → Except ε β)
    (r : β) (h : (a >>= f) = .ok r) : ∃ b, a = .ok b ∧ f b = .ok r := by
  cases a with
  | error e => simp [Bind.bind, Except.bind] at h
  | ok b => exact ⟨b, rfl, by simpa [Bind.bind, Except.bind] using h⟩

theorem except_bind_error {ε α β : Type} (a : Except ε α)
    (f : α → Except ε β) (e : ε) (h : a = .error e) :
    (a >>= f) = .error e := by
  rw [h]; rfl

theorem list_map_self (l : List Txn) (f : Txn → Txn)
    (h : ∀ x ∈ l, f x = x) : l.map f = l := by
  induction l with
  | nil => rfl
  | cons x xs ih =>
    simp only [List.map_cons, h x (List.mem_cons_self x xs)]
    rw [ih (fun y hy => h y (List.mem_cons_of_mem x hy))]

theorem except_bind_error_cases {ε α β : Type} (a : Except ε α)
    (f : α → Except ε β) (e : ε) (h : (a >>= f) = .error e) :
    a = .error e ∨ ∃ b, a = .ok b ∧ f b = .error e := by
  cases a with
  | error e2 =>
    left
    have : e2 = e := by simpa [Bind.bind, Except.bind] using h
    rw [this]
  | ok b => right; exact ⟨b, rfl, by simpa [Bind.bind, Except.bind] using h⟩

/-! ### Characterization of the `update_transaction` field pipeline -/

theorem applyTypeField_ok (d : UpdateInput) (t r : Txn)
    (h : applyTypeField d t = .ok r) :
    r.id = t.id ∧ r.user_id = t.user_id ∧ r.category = t.category ∧
    r.amount = t.amount ∧ r.date = t.date ∧ r.description = t.description ∧
    (d.type = none → r.type = t.type) ∧
    (∀ ty, d.type = some ty → validTypes.contains ty = true) := by
  cases hty : d.type with
  | none =>
    simp only [applyTypeField, hty] at h
    injection h with h; subst h; simp
  | some ty =>
    simp only [applyTypeField, hty] at h
    split at h
    next hmem =>
      injection h with h; subst h
      refine ⟨rfl, rfl, rfl, rfl, rfl, rfl, by simp, ?_⟩
      intro ty1 hty1
      injection hty1 with hh
      subst hh
      simpa using hmem
    next => simp at h

theorem applyCategoryField_ok (d : UpdateInput) (t r : Txn)
    (h : applyCategoryField d t = .ok r) :
    r.id = t.id ∧ r.user_id = t.user_id ∧ r.type = t.type ∧
    r.amount = t.amount ∧ r.date = t.date ∧ r.description = t.description ∧
    (d.category = none → r.category = t.category) := by
  cases hca : d.category with
  | none =>
    simp only [applyCategoryField, hca] at h
    injection h with h; subst h; simp
  | some c =>
    simp only [applyCategoryField, hca] at h
    injection h with h; subst h; simp

theorem applyAmountField_ok (d : UpdateInput) (t r : Txn)
    (h : applyAmountField d t = .ok r) :
    r.id = t.id ∧ r.user_id = t.user_id ∧ r.type = t.type ∧
    r.category = t.category ∧ r.date = t.date ∧
    r.description = t.description ∧
    (d.amount = none → r.amount = t.amount) ∧
    (∀ v, d.amount = some v → pyFloat v = some r.amount ∧ 0 < r.amount) := by
  cases ham : d.amount with
  | none =>
    simp only [applyAmountField, ham] at h
    injection h with h; subst h; simp
  | some v =>
    simp only [applyAmountField, ham] at h
    cases hpf : pyFloat v with
    | none => simp only [hpf] at h; simp at h
    | some q =>
      simp only [hpf] at h
      split at h
      next => simp at h
      next hq =>
        injection h with h; subst h
        refine ⟨rfl, rfl, rfl, rfl, rfl, rfl, by simp, ?_⟩
        intro v1 hv1
        injection hv1 with hh
        subst hh
        exact ⟨hpf, not_le.mp hq⟩

theorem applyDateField_ok (d : UpdateInput) (t r : Txn)
    (h : applyDateField d t = .ok r) :
    r.id = t.id ∧ r.user_id = t.user_id ∧ r.type = t.type ∧
    r.category = t.category ∧ r.amount = t.amount ∧
    r.description = t.description ∧
    (d.date = none → r.date = t.date) ∧
    (∀ s, d.date = some s → (parseDate s).isSome) := by
  cases hda : d.date with
  | none =>
    simp only [applyDateField, hda] at h
    injection h with h; subst h; simp
  | some s =>
    simp only [applyDateField, hda] at h
    cases hps : parseDate s with
    | none => simp only [hps] at h; simp at h
    | some dt =>
      simp only [hps] at h
      injection h with h; subst h
      refine ⟨rfl, rfl, rfl, rfl, rfl, rfl, by simp, ?_⟩
      intro s1 hs1
      injection hs1 with hh
      subst hh
      simp [hps]

theorem applyDescriptionField_ok (d : UpdateInput) (t r : Txn)
    (h : applyDescriptionField d t = .ok r) :
    r.id = t.id ∧ r.user_id = t.user_id ∧ r.type = t.type ∧
    r.category = t.category ∧ r.amount = t.amount ∧ r.date = t.date ∧
    (d.description = none → r.description = t.description) := by
  cases hde : d.description with
  | none =>
    simp only [applyDescriptionField, hde] at h
    injection h with h; subst h; simp
  | some s =>
    simp only [applyDescriptionField, hde] at h
    injection h with h; subst h; simp

/-- Everything `update_transaction` guarantees about the mutated row when
every supplied field passed validation. -/
theorem applyUpdateFields_ok (d : UpdateInput) (t r : Txn)
    (h : applyUpdateFields d t = .ok r) :
    r.id = t.id ∧ r.user_id = t.user_id ∧
    (d.type = none → r.type = t.type) ∧
    (d.category = none → r.category = t.category) ∧
    (d.amount = none → r.amount = t.amount) ∧
    (d.date = none → r.date = t.date) ∧
    (d.description = none → r.description = t.description) ∧
    (∀ ty, d.type = some ty → validTypes.contains ty = true) ∧
    (∀ v, d.amount = some v → pyFloat v = some r.amount ∧ 0 < r.amount) ∧
    (∀ s, d.date = some s → (parseDate s).isSome) := by
  unfold applyUpdateFields at h
  obtain ⟨t4, h4, hE⟩ := except_bind_ok _ _ _ h
  obtain ⟨t3, h3, hD⟩ := except_bind_ok _ _ _ h4
  obtain ⟨t2, h2, hC⟩ := except_bind_ok _ _ _ h3
  obtain ⟨t1, hA, hB⟩ := except_bind_ok _ _ _ h2
  obtain ⟨a_id, a_u, a_ca, a_am, a_da, a_de, a_ty, a_enum⟩ :=
    applyTypeField_ok d t t1 hA
  obtain ⟨b_id, b_u, b_ty, b_am, b_da, b_de, b_ca⟩ :=
    applyCategoryField_ok d t1 t2 hB
  obtain ⟨c_id, c_u, c_ty, c_ca, c_da, c_de, c_am, c_good⟩ :=
    applyAmountField_ok d t2 t3 hC
  obtain ⟨d_id, d_u, d_ty, d_ca, d_am, d_de, d_da, d_good⟩ :=
    applyDateField_ok d t3 t4 hD
  obtain ⟨e_id, e_u, e_ty, e_ca, e_am, e_da, e_de⟩ :=
    applyDescriptionField_ok d t4 r hE
  refine ⟨?_, ?_, ?_, ?_, ?_, ?_, ?_, a_enum, ?_, d_good⟩
  · rw [e_id, d_id, c_id, b_id, a_id]
  · rw [e_u, d_u, c_u, b_u, a_u]
  · intro hx; rw [e_ty, d_ty, c_ty, b_ty, a_ty hx]
  · intro hx; rw [e_ca, d_ca, c_ca, b_ca hx, a_ca]
  · intro hx; rw [e_am, d_am, c_am hx, b_am, a_am]
  · intro hx; rw [e_da, d_da hx, c_da, b_da, a_da]
  · intro hx; rw [e_de hx, d_de, c_de, b_de, a_de]
  · intro v hv
    rw [e_am, d_am]
    exact c_good v hv

theorem applyTypeField_error_status (d : UpdateInput) (t : Txn)
    (e : Nat × String) (h : applyTypeField d t = .error e) : e.1 = 400 := by
  cases hty : d.type with
  | none => simp only [applyTypeField, hty] at h; simp at h
  | some ty =>
    simp only [applyTypeField, hty] at h
    split at h
    next => simp at h
    next => injection h with h; subst h; rfl

theorem applyCategoryField_never_errors (d : UpdateInput) (t : Txn)
    (e : Nat × String) (h : applyCategoryField d t = .error e) : False := by
  cases hca : d.category with
  | none => simp only [applyCategoryField, hca] at h; simp at h
  | some c => simp only [applyCategoryField, hca] at h; simp at h

theorem applyAmountField_error_status (d : UpdateInput) (t : Txn)
    (e : Nat × String) (h : applyAmountField d t = .error e) : e.1 = 400 := by
  cases ham : d.amount with
  | none => simp only [applyAmountField, ham] at h; simp at h
  | some v =>
    simp only [applyAmountField, ham] at h
    cases hpf : pyFloat v with
    | none => simp only [hpf] at h; injection h with h; subst h; rfl
    | some q =>
      simp only [hpf] at h
      split at h
      next => injection h with h; subst h; rfl
      next => simp at h

theorem applyDateField_error_status (d : UpdateInput) (t : Txn)
    (e : Nat × String) (h : applyDateField d t = .error e) : e.1 = 400 := by
  cases hda : d.date with
  | none => simp only [applyDateField, hda] at h; simp at h
  | some s =>
    simp only [applyDateField, hda] at h
    cases hps : parseDate s with
    | none => simp only [hps] at h; injection h with h; subst h; rfl
    | some dt => simp only [hps] at h; simp at h

theorem applyDescriptionField_never_errors (d : UpdateInput) (t : Txn)
    (e : Nat × String) (h : applyDescriptionField d t = .error e) : False := by
  cases hde : d.description with
  | none => simp only [applyDescriptionField, hde] at h; simp at h
  | some s => simp only [applyDescriptionField, hde] at h; simp at h

/-- Every early 400 return of the update pipeline really carries status 400. -/
theorem applyUpdateFields_error_status (d : UpdateInput) (t : Txn)
    (e : Nat × String) (h : applyUpdateFields d t = .error e) : e.1 = 400 := by
  unfold applyUpdateFields at h
  rcases except_bind_error_cases _ _ _ h with h4 | ⟨t4, h4, hE⟩
  · rcases except_bind_error_cases _ _ _ h4 with h3 | ⟨t3, h3, hD⟩
    · rcases except_bind_error_cases _ _ _ h3 with h2 | ⟨t2, h2, hC⟩
      · rcases except_bind_error_cases _ _ _ h2 with h1 | ⟨t1, h1, hB⟩
        · exact applyTypeField_error_status d t e h1
        · exact absurd hB (by intro hB; exact applyCategoryField_never_errors d t1 e hB)
      · exact applyAmountField_error_status d t2 e hC
    · exact applyDateField_error_status d t3 e hD
  · exact absurd hE (by intro hE; exact applyDescriptionField_never_errors d t4 e hE)

/-! ### C1 -/

/-- C1: for a transaction owned by user `u1`, an authenticated requester
`u2 ≠ u1` gets the 404 not-found response from GET, PUT and DELETE on
`/api/transactions/{id}` (the exact response produced when no such
transaction exists), and the store is unchanged. -/
theorem c1_cross_user_access_is_404 (store : List Txn) (u1 u2 tid : Nat)
    (a : Txn) (huniq : UniqueIds store) (ha : a ∈ store) (haid : a.id = tid)
    (haown : a.user_id = u1) (hne : u2 ≠ u1) :
    get_transaction store u2 tid =
      ⟨404, none, some "Transaction not found", none⟩ ∧
    (∀ d : UpdateInput, update_transaction store u2 tid d =
      (⟨404, none, some "Transaction not found", none⟩, store)) ∧
    delete_transaction store u2 tid =
      (⟨404, none, some "Transaction not found", none⟩, store) := by
  have hfind : scopedFind store u2 tid = none :=
    scopedFind_eq_none_of_other_user store u1 u2 tid a huniq ha haid haown hne
  refine ⟨?_, fun d => ?_, ?_⟩
  · unfold get_transaction; rw [hfind]
  · unfold update_transaction; rw [hfind]
  · unfold delete_transaction; rw [hfind]

def c1Txn : Txn := ⟨1, 10, "income", "salary", 1000, ⟨2024, 1, 10⟩, ""⟩

def c1Store : List Txn := [c1Txn]

theorem c1_witness :
    get_transaction c1Store 20 1 =
      ⟨404, none, some "Transaction not found", none⟩ ∧
    update_transaction c1Store 20 1 ⟨none, none, none, none, none⟩ =
      (⟨404, none, some "Transaction not found", none⟩, c1Store) ∧
    delete_transaction c1Store 20 1 =
      (⟨404, none, some "Transaction not found", none⟩, c1Store) := by
  obtain ⟨h1, h2, h3⟩ :=
    c1_cross_user_access_is_404 c1Store 10 20 1 c1Txn (by decide)
      (by decide) (by decide) (by decide) (by decide)
  exact ⟨h1, h2 ⟨none, none, none, none, none⟩, h3⟩

/-! ### C2 -/

/-- A concrete password hash collaborator used for witnesses. -/
def specHash : String → String := fun s => String.append "hashed:" s

def c2Users : List User := [⟨1, "A", "a@b.com", specHash "secret1"⟩]

/-- C2 (the code's actual behaviour at the failing input): with user
`a@b.com` registered, registering ` a@b.com` (same email up to surrounding
whitespace) slips past the duplicate pre-check (which lowercases but does
not strip) and dies on the `users.email` unique constraint at commit: the
handler answers with the generic 500 "Registration failed", not the 400
ConflictError the claim states.  No new user is created.  A casing-only
variant is caught by the pre-check and does get the 400. -/
theorem c2_whitespace_duplicate_500 :
    register specHash c2Users 2 ⟨some "B", some " a@b.com", some "secret2"⟩ =
      (⟨500, none, some "Registration failed", none⟩, c2Users) ∧
    register specHash c2Users 2 ⟨some "B", some "A@B.com", some "secret2"⟩ =
      (⟨400, none, some "Email already exists", none⟩, c2Users) := by
  constructor <;> rfl

/-! ### C10 -/

def emptyUpdate : UpdateInput := ⟨none, none, none, none, none⟩

/-- C10: a PUT whose body contains none of the five updatable keys succeeds
with 200, returns the transaction with its prior values, and leaves the
store unchanged. -/
theorem c10_empty_put_is_noop (store : List Txn) (uid tid : Nat) (t0 : Txn)
    (huniq : UniqueIds store) (hfind : scopedFind store uid tid = some t0) :
    update_transaction store uid tid emptyUpdate =
      (⟨200, some "Transaction updated successfully", none, some t0⟩,
       store) := by
  have ht0mem : t0 ∈ store := List.mem_of_find?_eq_some hfind
  have happ : applyUpdateFields emptyUpdate t0 = .ok t0 := rfl
  have hmap : store.map (fun x => if x.id == t0.id then t0 else x) = store := by
    apply list_map_self
    intro x hx
    by_cases hid : x.id = t0.id
    · have : x = t0 := huniq x hx t0 ht0mem hid
      simp [this]
    · simp [hid]
  simp only [update_transaction, hfind, happ, hmap]

theorem c10_witness :
    update_transaction c1Store 10 1 emptyUpdate =
      (⟨200, some "Transaction updated successfully", none, some c1Txn⟩,
       c1Store) :=
  c10_empty_put_is_noop c1Store 10 1 c1Txn (by decide) (by decide)

/-- `create_transaction` either rejects with a 400 and an unchanged store,
or commits exactly one new row whose amount passed the positivity check and
whose date parsed. -/
theorem create_transaction_cases (store : List Txn) (uid nextId : Nat)
    (d : CreateInput) :
    ((create_transaction store uid nextId d).1.status = 400 ∧
      (create_transaction store uid nextId d).2 = store) ∨
    (∃ q dt,
      pyFloat (d.amount.getD .jnull) = some q ∧ 0 < q ∧
      parseDate (d.date.getD "") = some dt ∧
      (create_transaction store uid nextId d).1.status = 201 ∧
      (create_transaction store uid nextId d).2 =
        store ++ [⟨nextId, uid, d.type.getD "", d.category.getD "", q, dt,
                   pyStrip (d.description.getD "")⟩]) := by
  unfold create_transaction
  split
  · exact Or.inl ⟨rfl, rfl⟩
  · split
    · exact Or.inl ⟨rfl, rfl⟩
    · split
      · exact Or.inl ⟨rfl, rfl⟩
      · split
        · exact Or.inl ⟨rfl, rfl⟩
        · split
          · exact Or.inl ⟨rfl, rfl⟩
          · split
            next => exact Or.inl ⟨rfl, rfl⟩
            next q hq =>
              split
              next => exact Or.inl ⟨rfl, rfl⟩
              next hqle =>
                split
                next => exact Or.inl ⟨rfl, rfl⟩
                next dt hdt =>
                  exact Or.inr ⟨q, dt, hq, not_le.mp hqle, hdt, rfl, rfl⟩

/-! ### C4 -/

/-- C4: a PUT request is all-or-nothing.  If the response status is not 200
the store is unchanged (no partial mutation is committed, even when fields
processed earlier in the same request were valid); on success, every field
not present in the input keeps its prior value. -/
theorem c4_update_all_or_nothing (store : List Txn) (uid tid : Nat)
    (d : UpdateInput) :
    ((update_transaction store uid tid d).1.status ≠ 200 →
      (update_transaction store uid tid d).2 = store) ∧
    (∀ t1, (update_transaction store uid tid d).1.txn = some t1 →
      ∃ t0, scopedFind store uid tid = some t0 ∧
        (update_transaction store uid tid d).1.status = 200 ∧
        (d.type = none → t1.type = t0.type) ∧
        (d.category = none → t1.category = t0.category) ∧
        (d.amount = none → t1.amount = t0.amount) ∧
        (d.date = none → t1.date = t0.date) ∧
        (d.description = none → t1.description = t0.description) ∧
        (update_transaction store uid tid d).2 =
          store.map (fun x => if x.id == t0.id then t1 else x)) := by
  cases hf : scopedFind store uid tid with
  | none =>
    have hupd : update_transaction store uid tid d =
        (⟨404, none, some "Transaction not found", none⟩, store) := by
      simp [update_transaction, hf]
    rw [hupd]
    exact ⟨fun _ => rfl, fun t1 h => by simp at h⟩
  | some t0 =>
    cases happ : applyUpdateFields d t0 with
    | error e =>
      obtain ⟨st, msg⟩ := e
      have hupd : update_transaction store uid tid d =
          (⟨st, none, some msg, none⟩, store) := by
        simp [update_transaction, hf, happ]
      rw [hupd]
      exact ⟨fun _ => rfl, fun t1 h => by simp at h⟩
    | ok t1 =>
      have hupd : update_transaction store uid tid d =
          (⟨200, some "Transaction updated successfully", none, some t1⟩,
           store.map (fun x => if x.id == t0.id then t1 else x)) := by
        simp [update_transaction, hf, happ]
      rw [hupd]
      constructor
      · intro h; exact absurd rfl h
      · intro t2 h
        simp only [Option.some.injEq] at h
        subst h
        obtain ⟨_, _, hty, hca, ham, hda, hde, _, _, _⟩ :=
          applyUpdateFields_ok d t0 t1 happ
        exact ⟨t0, rfl, rfl, hty, hca, ham, hda, hde, rfl⟩

/-- A PUT body whose `type` is valid but whose `amount` is non-positive: the
type field is processed (and the in-memory object mutated) before the amount
check fails. -/
def c4BadInput : UpdateInput :=
  ⟨some "expense", none, some (.jnum (-1)), none, none⟩

theorem c4_witness :
    (update_transaction c1Store 10 1 c4BadInput).1.status ≠ 200 ∧
    (update_transaction c1Store 10 1 c4BadInput).2 = c1Store :=
  ⟨by decide, (c4_update_all_or_nothing c1Store 10 1 c4BadInput).1 (by decide)⟩

/-! ### C3 -/

def c3Txn : Txn := ⟨1, 10, "expense", "food", 50, ⟨2024, 1, 10⟩, ""⟩

def c3Store : List Txn := [c3Txn]

/-- C3 counterexample: a PUT supplying an empty `category` is NOT rejected:
the handler's `if 'category' in data:` block assigns the value without any
validation (unlike `create`, which requires a truthy category), so the
update succeeds with 200 and stores the empty category. -/
theorem c3_counterexample :
    update_transaction c3Store 10 1 ⟨none, some "", none, none, none⟩ =
      (⟨200, some "Transaction updated successfully", none,
        some ⟨1, 10, "expense", "", 50, ⟨2024, 1, 10⟩, ""⟩⟩,
       [⟨1, 10, "expense", "", 50, ⟨2024, 1, 10⟩, ""⟩]) := by
  decide

/-- C3 (amended): on a PUT to an existing owned transaction, a supplied
`type` outside the enum, a supplied non-positive or non-numeric `amount`,
and a supplied unparseable `date` each make the update fail with a 400
response and leave the store unchanged; a supplied `category` is not
validated. -/
theorem c3_update_field_validation (store : List Txn) (uid tid : Nat)
    (d : UpdateInput) (t0 : Txn)
    (hf : scopedFind store uid tid = some t0) :
    (∀ ty, d.type = some ty → validTypes.contains ty = false →
      (update_transaction store uid tid d).1.status = 400 ∧
      (update_transaction store uid tid d).2 = store) ∧
    (∀ v, d.amount = some v → (∀ q, pyFloat v = some q → q ≤ 0) →
      (update_transaction store uid tid d).1.status = 400 ∧
      (update_transaction store uid tid d).2 = store) ∧
    (∀ s, d.date = some s → parseDate s = none →
      (update_transaction store uid tid d).1.status = 400 ∧
      (update_transaction store uid tid d).2 = store) := by
  have herr : ∀ e, applyUpdateFields d t0 = .error e →
      (update_transaction store uid tid d).1.status = 400 ∧
      (update_transaction store uid tid d).2 = store := by
    intro e he
    obtain ⟨st, msg⟩ := e
    have h400 : st = 400 := applyUpdateFields_error_status d t0 (st, msg) he
    subst h400
    have hupd : update_transaction store uid tid d =
        (⟨400, none, some msg, none⟩, store) := by
      simp [update_transaction, hf, he]
    rw [hupd]
    exact ⟨rfl, rfl⟩
  refine ⟨?_, ?_, ?_⟩
  · intro ty hty hmem
    cases happ : applyUpdateFields d t0 with
    | error e => exact herr e happ
    | ok t1 =>
      obtain ⟨_, _, _, _, _, _, _, henum, _, _⟩ :=
        applyUpdateFields_ok d t0 t1 happ
      rw [henum ty hty] at hmem
      exact absurd hmem (by simp)
  · intro v hv hbad
    cases happ : applyUpdateFields d t0 with
    | error e => exact herr e happ
    | ok t1 =>
      obtain ⟨_, _, _, _, _, _, _, _, hgood, _⟩ :=
        applyUpdateFields_ok d t0 t1 happ
      obtain ⟨hpf, hqpos⟩ := hgood v hv
      exact absurd hqpos (not_lt.mpr (hbad t1.amount hpf))
  · intro s hs hps
    cases happ : applyUpdateFields d t0 with
    | error e => exact herr e happ
    | ok t1 =>
      obtain ⟨_, _, _, _, _, _, _, _, _, hdate⟩ :=
        applyUpdateFields_ok d t0 t1 happ
      have := hdate s hs
      rw [hps] at this
      exact absurd this (by simp)

theorem c3_witness :
    (update_transaction c3Store 10 1
        ⟨some "groceries", none, none, none, none⟩).1.status = 400 ∧
    (update_transaction c3Store 10 1
        ⟨some "groceries", none, none, none, none⟩).2 = c3Store :=
  (c3_update_field_validation c3Store 10 1
      ⟨some "groceries", none, none, none, none⟩ c3Txn (by decide)).1
    "groceries" rfl (by decide)

/-! ### C5 -/

/-- C5: no operation ever persists a non-positive amount.  Create and
update each answer a non-positive supplied amount with a 400 (create) or a
non-200 (update: 400, or 404 when the row is missing) response and leave
the store unchanged; and if every stored amount is positive, it stays so
across create, update and delete. -/
theorem c5_amount_always_positive (store : List Txn) (uid nextId tid : Nat)
    (dc : CreateInput) (du : UpdateInput)
    (hpos : ∀ t ∈ store, 0 < t.amount) :
    (∀ q : Rat, dc.amount = some (.jnum q) → q ≤ 0 →
      (create_transaction store uid nextId dc).1.status = 400 ∧
      (create_transaction store uid nextId dc).2 = store) ∧
    (∀ q : Rat, du.amount = some (.jnum q) → q ≤ 0 →
      (update_transaction store uid tid du).1.status ≠ 200 ∧
      (update_transaction store uid tid du).2 = store) ∧
    (∀ t ∈ (create_transaction store uid nextId dc).2, 0 < t.amount) ∧
    (∀ t ∈ (update_transaction store uid tid du).2, 0 < t.amount) ∧
    (∀ t ∈ (delete_transaction store uid tid).2, 0 < t.amount) := by
  have hcreate := create_transaction_cases store uid nextId dc
  refine ⟨?_, ?_, ?_, ?_, ?_⟩
  · intro q hq hle
    rcases hcreate with ⟨h400, hst⟩ | ⟨q2, dt, hpf, hqpos, _, _, _⟩
    · exact ⟨h400, hst⟩
    · rw [hq] at hpf
      simp only [Option.getD_some, pyFloat, Option.some.injEq] at hpf
      rw [← hpf] at hqpos
      exact absurd hqpos (not_lt.mpr hle)
  · intro q hq hle
    cases hf : scopedFind store uid tid with
    | none =>
      have hupd : update_transaction store uid tid du =
          (⟨404, none, some "Transaction not found", none⟩, store) := by
        simp [update_transaction, hf]
      rw [hupd]
      exact ⟨by simp, rfl⟩
    | some t0 =>
      cases happ : applyUpdateFields du t0 with
      | error e =>
        obtain ⟨st, msg⟩ := e
        have h400 : st = 400 := applyUpdateFields_error_status du t0 _ happ
        subst h400
        have hupd : update_transaction store uid tid du =
            (⟨400, none, some msg, none⟩, store) := by
          simp [update_transaction, hf, happ]
        rw [hupd]
        exact ⟨by simp, rfl⟩
      | ok t1 =>
        obtain ⟨_, _, _, _, _, _, _, _, hgood, _⟩ :=
          applyUpdateFields_ok du t0 t1 happ
        obtain ⟨hpf, hqpos⟩ := hgood (.jnum q) hq
        simp only [pyFloat, Option.some.injEq] at hpf
        rw [hpf] at hle
        exact absurd hqpos (not_lt.mpr hle)
  · rcases hcreate with ⟨_, hst⟩ | ⟨q2, dt, _, hqpos, _, _, hst⟩
    · rw [hst]; exact hpos
    · rw [hst]
      intro t ht
      rcases List.mem_append.mp ht with hmem | hmem
      · exact hpos t hmem
      · simp only [List.mem_singleton] at hmem
        rw [hmem]
        exact hqpos
  · cases hf : scopedFind store uid tid with
    | none =>
      have hupd : update_transaction store uid tid du =
          (⟨404, none, some "Transaction not found", none⟩, store) := by
        simp [update_transaction, hf]
      rw [hupd]
      exact hpos
    | some t0 =>
      cases happ : applyUpdateFields du t0 with
      | error e =>
        obtain ⟨st, msg⟩ := e
        have hupd : update_transaction store uid tid du =
            (⟨st, none, some msg, none⟩, store) := by
          simp [update_transaction, hf, happ]
        rw [hupd]
        exact hpos
      | ok t1 =>
        have hupd : update_transaction store uid tid du =
            (⟨200, some "Transaction updated successfully", none, some t1⟩,
             store.map (fun x => if x.id == t0.id then t1 else x)) := by
          simp [update_transaction, hf, happ]
        rw [hupd]
        intro t ht
        obtain ⟨x, hx, hfx⟩ := List.mem_map.mp ht
        obtain ⟨_, _, _, _, ham, _, _, _, hgood, _⟩ :=
          applyUpdateFields_ok du t0 t1 happ
        have ht1pos : 0 < t1.amount := by
          cases hamo : du.amount with
          | none =>
            rw [ham hamo]
            exact hpos t0 (List.mem_of_find?_eq_some hf)
          | some v => exact (hgood v hamo).2
        by_cases hid : (x.id == t0.id) = true
        · rw [← hfx, if_pos hid]; exact ht1pos
        · rw [← hfx, if_neg hid]; exact hpos x hx
  · cases hf : scopedFind store uid tid with
    | none =>
      have hdel : delete_transaction store uid tid =
          (⟨404, none, some "Transaction not found", none⟩, store) := by
        simp [delete_transaction, hf]
      rw [hdel]
      exact hpos
    | some t0 =>
      have hdel : delete_transaction store uid tid =
          (⟨200, some "Transaction deleted successfully", none, none⟩,
           store.filter (fun x => x.id != t0.id)) := by
        simp [delete_transaction, hf]
      rw [hdel]
      intro t ht
      exact hpos t (List.mem_of_mem_filter ht)

def c5BadCreate : CreateInput :=
  ⟨some "income", some "salary", some (.jnum (-5)), some "2024-01-10", none⟩

theorem c5_witness :
    (create_transaction c1Store 10 2 c5BadCreate).1.status = 400 ∧
    (create_transaction c1Store 10 2 c5BadCreate).2 = c1Store :=
  (c5_amount_always_positive c1Store 10 2 1 c5BadCreate emptyUpdate
      (by decide)).1 (-5) rfl (by decide)

/-! ### C6 -/

/-- The effective bound contributed by an optional date query parameter:
absent or empty means no bound, otherwise the parsed date. -/
def effDate (q : Option String) : Option Date :=
  match q with
  | none => none
  | some s => if s == "" then none else parseDate s

def lowerOk (lo : Option Date) (d : Date) : Bool :=
  match lo with
  | none => true
  | some l => dateLe l d

def upperOk (hi : Option Date) (d : Date) : Bool :=
  match hi with
  | none => true
  | some h => dateLe d h

/-- `start_date ≤ date ≤ end_date`, with absent bounds trivially true. -/
def inDateRange (lo hi : Option Date) (d : Date) : Bool :=
  lowerOk lo d && upperOk hi d

/-- Spec-side aggregator, following the spec's words: sum amounts per type
over the user's (optionally date-filtered) transaction set; balance is
income minus expense minus savings minus investment; count the set. -/
def summarySpec (store : List Txn) (uid : Nat) (lo hi : Option Date) :
    SummaryResponse :=
  let sel := store.filter
    (fun t => t.user_id == uid && inDateRange lo hi t.date)
  ⟨200, sumAmounts sel "income", sumAmounts sel "expense",
   sumAmounts sel "savings", sumAmounts sel "investment",
   sumAmounts sel "income" - sumAmounts sel "expense" -
     sumAmounts sel "savings" - sumAmounts sel "investment",
   sel.length, none⟩

theorem filterFromDate_eq (q : Option String) (l : List Txn)
    (h : ∀ s, q = some s → s ≠ "" → (parseDate s).isSome) :
    filterFromDate q l =
      some (l.filter (fun t => lowerOk (effDate q) t.date)) := by
  cases q with
  | none => simp [filterFromDate, effDate, lowerOk]
  | some s =>
    by_cases hs : s = ""
    · subst hs; simp [filterFromDate, effDate, lowerOk]
    · have hb : (s == "") = false := beq_eq_false_iff_ne.mpr hs
      cases hp : parseDate s with
      | none =>
        have hsome := h s rfl hs
        rw [hp] at hsome
        simp at hsome
      | some d => simp [filterFromDate, effDate, lowerOk, hb, hp]

theorem filterToDate_eq (q : Option String) (l : List Txn)
    (h : ∀ s, q = some s → s ≠ "" → (parseDate s).isSome) :
    filterToDate q l =
      some (l.filter (fun t => upperOk (effDate q) t.date)) := by
  cases q with
  | none => simp [filterToDate, effDate, upperOk]
  | some s =>
    by_cases hs : s = ""
    · subst hs; simp [filterToDate, effDate, upperOk]
    · have hb : (s == "") = false := beq_eq_false_iff_ne.mpr hs
      cases hp : parseDate s with
      | none =>
        have hsome := h s rfl hs
        rw [hp] at hsome
        simp at hsome
      | some d => simp [filterToDate, effDate, upperOk, hb, hp]

theorem summary_sel_eq (store : List Txn) (uid : Nat) (lo hi : Option Date) :
    ((store.filter (fun t => t.user_id == uid)).filter
        (fun t => lowerOk lo t.date)).filter
        (fun t => upperOk hi t.date) =
      store.filter (fun t => t.user_id == uid && inDateRange lo hi t.date) := by
  rw [List.filter_filter, List.filter_filter]
  apply List.filter_congr
  intro x _
  unfold inDateRange
  cases (x.user_id == uid) <;> cases lowerOk lo x.date <;>
    cases upperOk hi x.date <;> rfl

/-- C6: the summary endpoint computes, over the user's date-filtered
transactions, the per-type totals, the balance
income − expense − savings − investment, and the transaction count —
exactly the spec-side aggregate. -/
theorem c6_summary_matches_spec (store : List Txn) (uid : Nat)
    (qstart qend : Option String)
    (hs : ∀ s, qstart = some s → s ≠ "" → (parseDate s).isSome)
    (he : ∀ s, qend = some s → s ≠ "" → (parseDate s).isSome) :
    get_stats_summary store uid qstart qend =
      summarySpec store uid (effDate qstart) (effDate qend) := by
  have hsel := summary_sel_eq store uid (effDate qstart) (effDate qend)
  simp only [get_stats_summary,
    filterFromDate_eq qstart _ hs, filterToDate_eq qend _ he, hsel,
    summarySpec]

/-- The spec's worked example: income 1000, expense 300, savings 100. -/
def c6Store : List Txn :=
  [⟨1, 10, "income", "salary", 1000, ⟨2024, 1, 10⟩, ""⟩,
   ⟨2, 10, "expense", "food", 300, ⟨2024, 1, 11⟩, ""⟩,
   ⟨3, 10, "savings", "save", 100, ⟨2024, 1, 12⟩, ""⟩]

theorem c6_witness :
    get_stats_summary c6Store 10 none none =
      summarySpec c6Store 10 none none ∧
    (get_stats_summary c6Store 10 none none).balance = 600 := by
  refine ⟨c6_summary_matches_spec c6Store 10 none none
    (fun s h => nomatch h) (fun s h => nomatch h), ?_⟩
  simp [get_stats_summary, c6Store, filterFromDate, filterToDate,
    sumAmounts, List.filter]
  norm_num

/-! ### C7 -/

theorem filterFromDate_bad (s : String) (l : List Txn) (hs : s ≠ "")
    (hp : parseDate s = none) : filterFromDate (some s) l = none := by
  have hb : (s == "") = false := beq_eq_false_iff_ne.mpr hs
  simp [filterFromDate, hb, hp]

theorem filterToDate_bad (s : String) (l : List Txn) (hs : s ≠ "")
    (hp : parseDate s = none) : filterToDate (some s) l = none := by
  have hb : (s == "") = false := beq_eq_false_iff_ne.mpr hs
  simp [filterToDate, hb, hp]

/-- C7 counterexample: a malformed `start_date` on the list endpoint does
NOT produce the 400 ValidationError the claim states — the `ValueError`
from `strptime` escapes to the handler's only `except Exception`, which
answers 500 "Failed to fetch transactions". -/
theorem c7_counterexample :
    get_transactions [] 1 none none (some "not-a-date") none =
      ⟨500, [], 0, some "Failed to fetch transactions"⟩ := by
  decide

/-- C7 (amended): a list request whose supplied `start_date` or `end_date`
is not `YYYY-MM-DD` fails with the generic InternalError (500), not with a
ValidationError (400). -/
theorem c7_list_bad_date_500 (store : List Txn) (uid : Nat)
    (qtype qcat qstart qend : Option String) :
    (∀ s, qstart = some s → s ≠ "" → parseDate s = none →
      get_transactions store uid qtype qcat qstart qend =
        ⟨500, [], 0, some "Failed to fetch transactions"⟩) ∧
    (∀ s, qend = some s → s ≠ "" → parseDate s = none →
      (∀ s2, qstart = some s2 → s2 ≠ "" → (parseDate s2).isSome) →
      get_transactions store uid qtype qcat qstart qend =
        ⟨500, [], 0, some "Failed to fetch transactions"⟩) := by
  constructor
  · intro s hq hs hp
    subst hq
    simp [get_transactions, filterFromDate_bad s _ hs hp]
  · intro s hq hs hp hstart
    subst hq
    simp [get_transactions, filterFromDate_eq qstart _ hstart,
      filterToDate_bad s _ hs hp]

theorem c7_witness :
    get_transactions c1Store 10 none none (some "2024-13-40") none =
      ⟨500, [], 0, some "Failed to fetch transactions"⟩ :=
  (c7_list_bad_date_500 c1Store 10 none none (some "2024-13-40") none).1
    "2024-13-40" rfl (by decide) (by decide)

/-! ### C8 -/

/-- C8: a failed login answers with the single response
`401 "Invalid email or password"` whether the email is unknown or the
password is wrong for an existing email, so the response does not reveal
whether the email is registered. -/
theorem c8_login_uniform_failure (check : String → String → Bool)
    (users : List User) (d1 d2 : LoginInput)
    (h1e : truthyOptStr d1.email = true)
    (h1p : truthyOptStr d1.password = true)
    (h2e : truthyOptStr d2.email = true)
    (h2p : truthyOptStr d2.password = true)
    (h1 : users.find?
      (fun u => u.email == pyStrip (pyLower (d1.email.getD ""))) = none)
    (u : User)
    (h2 : users.find?
      (fun x => x.email == pyStrip (pyLower (d2.email.getD ""))) = some u)
    (hpw : check u.password_hash (d2.password.getD "") = false) :
    login check users d1 =
      ⟨401, none, some "Invalid email or password", none⟩ ∧
    login check users d2 =
      ⟨401, none, some "Invalid email or password", none⟩ ∧
    login check users d1 = login check users d2 := by
  have e1 : login check users d1 =
      ⟨401, none, some "Invalid email or password", none⟩ := by
    simp [login, h1e, h1p, h1]
  have e2 : login check users d2 =
      ⟨401, none, some "Invalid email or password", none⟩ := by
    simp [login, h2e, h2p, h2, hpw]
  exact ⟨e1, e2, e1.trans e2.symm⟩

def c8Check : String → String → Bool := fun h p => h == specHash p

def c8User : User := ⟨1, "A", "a@b.com", specHash "secret1"⟩

def c8Users : List User := [c8User]

theorem c8_witness :
    login c8Check c8Users ⟨some "ghost@x.com", some "pw123456"⟩ =
      ⟨401, none, some "Invalid email or password", none⟩ ∧
    login c8Check c8Users ⟨some "a@b.com", some "wrongpw"⟩ =
      ⟨401, none, some "Invalid email or password", none⟩ ∧
    login c8Check c8Users ⟨some "ghost@x.com", some "pw123456"⟩ =
      login c8Check c8Users ⟨some "a@b.com", some "wrongpw"⟩ :=
  c8_login_uniform_failure c8Check c8Users
    ⟨some "ghost@x.com", some "pw123456"⟩ ⟨some "a@b.com", some "wrongpw"⟩
    (by decide) (by decide) (by decide) (by decide) (by decide)
    c8User (by decide) (by decide)

/-! ### C9 -/

/-- C9: a query filter parameter supplied as the empty string is treated
exactly as if it were absent — Python truthiness makes `""` skip the
filter, so no predicate is applied and no date parsing happens. -/
theorem c9_empty_query_params_ignored (store : List Txn) (uid : Nat)
    (qtype qcat qstart qend : Option String) :
    get_transactions store uid (some "") qcat qstart qend =
      get_transactions store uid none qcat qstart qend ∧
    get_transactions store uid qtype (some "") qstart qend =
      get_transactions store uid qtype none qstart qend ∧
    get_transactions store uid qtype qcat (some "") qend =
      get_transactions store uid qtype qcat none qend ∧
    get_transactions store uid qtype qcat qstart (some "") =
      get_transactions store uid qtype qcat qstart none := by
  refine ⟨?_, ?_, ?_, ?_⟩ <;> rfl

end FinanceTracker
